import Mathlib

/-!
Verification development for the AniGen generation pipeline.

Shallow embedding of the core of the repository:
  * `src/generators/video.py` — `VideoGenerator` (segmented clip synthesis,
    concatenation, graceful fallback, prompt enhancement);
  * `src/episode_manager.py` — `EpisodeManager` (episode/scene lifecycle,
    cost aggregation, logging);
  * `src/canon.py` — `CanonMemory` (series state, recent-scene context);
  * `src/director.py` — `Director._parse_episode_plan` (plan validation);
  * `src/main.py` — `Orchestrator` (episode loop, shutdown handling).

Database rows are modelled as Lean structures, the PostgreSQL tables as lists
of rows, and each SQL statement by the corresponding pure list operation.
Network calls and `json.loads` are modelled as oracle parameters; wall-clock
time is a `Nat` parameter where the code reads `time.time()`.
Monetary `Decimal` values are modelled as `ℚ` (exact arithmetic).
-/

namespace AniGen

/-! ### Character-list string helpers (model of Python `str` operations) -/

/-- Model of Python `str.find(pat)` over a character list: index of the first
occurrence of `pat`, or `none` (Python returns `-1`). -/
def findSub (pat : List Char) : List Char → Option Nat
  | [] => if pat.isEmpty then some 0 else none
  | c :: rest =>
    if pat.isPrefixOf (c :: rest) then some 0
    else (findSub pat rest).map (· + 1)

/-- Model of Python `pat in s` (substring containment). -/
def hasSub (pat : List Char) (s : List Char) : Bool :=
  (findSub pat s).isSome

/-- Model of Python `str.strip()` (whitespace removed from both ends). -/
def pyStrip (s : List Char) : List Char :=
  ((s.dropWhile Char.isWhitespace).reverse.dropWhile Char.isWhitespace).reverse

/-- Model of Python `str.lower()` (ASCII case folding, as the prompts are ASCII). -/
def pyLower (s : List Char) : List Char := s.map Char.toLower

/-- Model of Python `pat in s.lower()` for strings. -/
def containsLower (s : String) (pat : String) : Bool :=
  hasSub pat.data (pyLower s.data)

/-! ### `VideoGenerator` (src/generators/video.py) -/

/-- Result dict of `VideoGenerator.generate_video` (the wall-clock
`generation_time` entry is omitted). -/
structure VideoResult where
  video_url : String
  duration : Nat
  cost : ℚ
  deriving Repr, DecidableEq

/-- `VideoGenerator._enhance_prompt_for_anime`: return the prompt unchanged when
it already mentions "anime" or "animated" (case-insensitively), otherwise wrap
it in the anime style prefix and suffix. -/
def enhance_prompt_for_anime (prompt : String) : String :=
  if containsLower prompt "anime" || containsLower prompt "animated" then prompt
  else "High-quality anime style animation: " ++ prompt ++
    ". Japanese animation aesthetic, vibrant colors, expressive characters, smooth motion, cinematic composition."

/-- `VideoGenerator._adapt_prompt_for_segment`: tag segment 1 as opening, the
last segment as conclusion, all others as continuation. -/
def adapt_prompt_for_segment (base_prompt : String) (segment_num total_segments : Nat) : String :=
  if segment_num == 1 then base_prompt ++ " [Opening sequence]"
  else if segment_num == total_segments then base_prompt ++ " [Conclusion]"
  else base_prompt ++ " [Continuation, mid-sequence]"

/-- The clip-generation loop of `generate_video`: for each segment index `i`
(the list is `[1, ..., num_clips]`), adapt the prompt and call
`_generate_single_clip` (modelled by the oracle `gen`, which returns the clip
URL or the raised exception's message). URLs are collected in submission
order; a failure aborts the loop. -/
def genClips (gen : String → Nat → Except String String) (enhanced : String)
    (total clip_duration : Nat) : List Nat → Except String (List String)
  | [] => .ok []
  | i :: rest =>
    match gen (adapt_prompt_for_segment enhanced i total) clip_duration with
    | .error e => .error e
    | .ok u =>
      match genClips gen enhanced total clip_duration rest with
      | .error e => .error e
      | .ok us => .ok (u :: us)

/-- The download loop of `VideoGenerator._concatenate_clips`: download every
clip in order (the oracle `dl` tells whether the HTTP GET returns status 200);
a failed download raises `Failed to download clip {i+1}`. -/
def downloadAll (dl : String → Bool) : List String → Nat → Except String Unit
  | [], _ => .ok ()
  | u :: rest, i =>
    if dl u then downloadAll dl rest (i + 1)
    else .error ("Failed to download clip " ++ toString (i + 1))

/-- `VideoGenerator._concatenate_clips`: download all clips in order, run the
FFmpeg concatenation (`ffmpegOk` models its return code), and then — as the
code's own comment says, as a placeholder for the unimplemented S3 upload —
return the FIRST clip's URL, not the concatenated artifact. `clip_urls[0]` on
an empty list raises. -/
def concatenate_clips (dl : String → Bool) (ffmpegOk : Bool)
    (clip_urls : List String) : Except String String :=
  match downloadAll dl clip_urls 0 with
  | .error e => .error e
  | .ok _ =>
    if ffmpegOk then
      match clip_urls with
      | [] => .error "list index out of range"
      | u :: _ => .ok u
    else .error "FFmpeg concatenation failed"

/-- The body of the `try:` block of `VideoGenerator.generate_video`: enhance
the prompt, generate `num_clips = 3` clips of `clip_duration = 10` seconds
each (these are hard-coded constants, independent of the requested
`duration`), concatenate, and price the scene at `num_clips × $0.70`. -/
def generate_video_attempt (gen : String → Nat → Except String String)
    (dl : String → Bool) (ffmpegOk : Bool) (prompt : String) (duration : Nat) :
    Except String VideoResult :=
  let enhanced := enhance_prompt_for_anime prompt
  let num_clips := 3
  let clip_duration := 10
  match genClips gen enhanced num_clips clip_duration (List.range' 1 num_clips) with
  | .error e => .error e
  | .ok clip_urls =>
    match concatenate_clips dl ffmpegOk clip_urls with
    | .error e => .error e
    | .ok final_video_url =>
      .ok { video_url := final_video_url, duration := duration,
            cost := (num_clips : ℚ) * (70 / 100 : ℚ) }

/-- `VideoGenerator.generate_video`: run the pipeline; on ANY exception fall
back to a mock artifact whose URL embeds the current UNIX time (`now`), priced
at `$2.10`. There is no strict mode: the function never propagates a failure. -/
def generate_video (gen : String → Nat → Except String String)
    (dl : String → Bool) (ffmpegOk : Bool) (now : Nat)
    (prompt : String) (duration : Nat) : VideoResult :=
  match generate_video_attempt gen dl ffmpegOk prompt duration with
  | .ok r => r
  | .error _ =>
    { video_url := "mock://video/" ++ toString now ++ ".mp4",
      duration := duration, cost := (210 / 100 : ℚ) }

/-! ### Data model (schema rows; timestamps are modelled as completion flags) -/

/-- Row of the singleton `series_state` table (src/canon.py reads/writes it).
`last_generated_at`/`updated_at` are wall-clock and omitted. -/
structure SeriesState where
  current_episode : Nat
  current_scene_in_episode : Nat
  total_scenes : Nat
  total_episodes : Nat
  system_status : String
  deriving Repr, DecidableEq

/-- Row of the `episodes` table. `generation_completed_at` is modelled by the
`completed` flag; `total_cost_usd` is NULL until completion. -/
structure EpisodeRow where
  id : Nat
  episode_number : Nat
  director_plan : String
  episode_arc_summary : String
  completed : Bool
  total_cost_usd : Option ℚ
  deriving Repr, DecidableEq

/-- Row of the `scenes` table. `generation_completed_at` is modelled by the
`completed` flag; `generation_cost_usd` is NULL until completion. -/
structure SceneRow where
  id : Nat
  scene_number : Nat
  episode_id : Nat
  scene_in_episode : Nat
  video_url : String
  duration_seconds : Nat
  video_prompt : String
  narrative_summary : String
  generation_cost_usd : Option ℚ
  retry_count : Nat
  completed : Bool
  deriving Repr, DecidableEq

/-- Row of the append-only `generation_logs` table. -/
structure LogRow where
  scene_number : Option Nat
  log_level : String
  component : String
  message : String
  error_details : Option String
  deriving Repr, DecidableEq

/-- The database: each table as a list of rows in insertion order, plus the
SERIAL id counters. -/
structure DB where
  episodes : List EpisodeRow
  scenes : List SceneRow
  logs : List LogRow
  series : SeriesState
  next_episode_id : Nat
  next_scene_id : Nat
  deriving Repr, DecidableEq

/-! ### `CanonMemory` (src/canon.py) -/

/-- `CanonMemory.update_series_state`: update exactly the fields that were
passed (a `some` argument models a non-`None` keyword argument). -/
def update_series_state (db : DB)
    (current_episode current_scene_in_episode total_scenes total_episodes : Option Nat)
    (system_status : Option String) : DB :=
  { db with series :=
    { current_episode := current_episode.getD db.series.current_episode
      current_scene_in_episode := current_scene_in_episode.getD db.series.current_scene_in_episode
      total_scenes := total_scenes.getD db.series.total_scenes
      total_episodes := total_episodes.getD db.series.total_episodes
      system_status := system_status.getD db.series.system_status } }

/-! ### `EpisodeManager` (src/episode_manager.py) -/

/-- `EpisodeManager.start_episode`: `SELECT id FROM episodes WHERE
episode_number = $1`; when a row exists return its id and change nothing,
otherwise insert a new row and move the series state to `planning_episode`
with `current_scene_in_episode = 1`. -/
def start_episode (db : DB) (episode_number : Nat)
    (director_plan episode_summary : String) : DB × Nat :=
  match db.episodes.find? (fun e => e.episode_number == episode_number) with
  | some e => (db, e.id)
  | none =>
    let episode_id := db.next_episode_id
    let row : EpisodeRow :=
      { id := episode_id, episode_number := episode_number
        director_plan := director_plan, episode_arc_summary := episode_summary
        completed := false, total_cost_usd := none }
    let db1 := { db with episodes := db.episodes ++ [row],
                         next_episode_id := episode_id + 1 }
    let db2 := update_series_state db1 (some episode_number) (some 1) none none
      (some "planning_episode")
    (db2, episode_id)

/-- `EpisodeManager.create_scene`: `SELECT id FROM scenes WHERE scene_number =
$1`; when a row exists return its id and change nothing, otherwise insert a
new row and move the series state to `generating_scene`, recording
`current_scene_in_episode`. -/
def create_scene (db : DB) (episode_id scene_number scene_in_episode : Nat)
    (video_prompt narrative_summary : String)
    (video_url : String := "") (duration_seconds : Nat := 30) : DB × Nat :=
  match db.scenes.find? (fun s => s.scene_number == scene_number) with
  | some s => (db, s.id)
  | none =>
    let scene_id := db.next_scene_id
    let row : SceneRow :=
      { id := scene_id, scene_number := scene_number, episode_id := episode_id
        scene_in_episode := scene_in_episode, video_url := video_url
        duration_seconds := duration_seconds, video_prompt := video_prompt
        narrative_summary := narrative_summary, generation_cost_usd := none
        retry_count := 0, completed := false }
    let db1 := { db with scenes := db.scenes ++ [row],
                         next_scene_id := scene_id + 1 }
    let db2 := update_series_state db1 none (some scene_in_episode) none none
      (some "generating_scene")
    (db2, scene_id)

/-- `EpisodeManager.complete_scene`: `UPDATE scenes SET ... WHERE id = $5`,
then read the series state and write `total_scenes + 1` back
(read-then-write, not atomic). -/
def complete_scene (db : DB) (scene_id : Nat) (video_url : String)
    (cost_usd : ℚ) (retry_count : Nat := 0) : DB :=
  let db1 := { db with scenes := db.scenes.map (fun s =>
    if s.id == scene_id then
      { s with video_url := video_url, generation_cost_usd := some cost_usd
               retry_count := retry_count, completed := true }
    else s) }
  update_series_state db1 none none (some (db1.series.total_scenes + 1)) none none

/-- `EpisodeManager.complete_episode`: recompute the episode's total cost with
`SELECT COALESCE(SUM(generation_cost_usd), 0) FROM scenes WHERE episode_id =
$1` (SQL `SUM` ignores NULL costs; `getD 0` models that), write it into the
episode row, then increment `total_episodes`, reset
`current_scene_in_episode` to 1 and set the status to idle. -/
def complete_episode (db : DB) (episode_id : Nat) : DB :=
  let total_cost : ℚ :=
    ((db.scenes.filter (fun s => s.episode_id == episode_id)).map
      (fun s => s.generation_cost_usd.getD 0)).sum
  let db1 := { db with episodes := db.episodes.map (fun e =>
    if e.id == episode_id then
      { e with completed := true, total_cost_usd := some total_cost }
    else e) }
  update_series_state db1 none (some 1) none
    (some (db1.series.total_episodes + 1)) (some "idle")

/-- `EpisodeManager.log_generation_event`: a single `INSERT INTO
generation_logs`, with NO exception handler around it. `execOk` models
whether the underlying `db.execute` succeeds; when it does not, the raised
exception propagates to the caller as the `.error` value. -/
def log_generation_event_db (execOk : Bool) (db : DB) (scene_number : Option Nat)
    (level component message : String) (error_details : Option String := none) :
    Except String DB :=
  if execOk then
    .ok { db with logs := db.logs ++
      [{ scene_number := scene_number, log_level := level, component := component
         message := message, error_details := error_details }] }
  else .error "PersistenceError: storage unavailable"

/-- `EpisodeManager.log_generation_event` on the happy path (persistence
available), as used by the orchestrator model. -/
def log_generation_event (db : DB) (scene_number : Option Nat)
    (level component message : String) (error_details : Option String := none) : DB :=
  { db with logs := db.logs ++
    [{ scene_number := scene_number, log_level := level, component := component
       message := message, error_details := error_details }] }

/-! ### `CanonMemory.get_recent_scenes` / `build_director_context` (src/canon.py) -/

/-- One row of the `get_recent_scenes` query result (scenes joined with their
episode). -/
structure RecentScene where
  scene_number : Nat
  episode_number : Nat
  scene_in_episode : Nat
  narrative_summary : String
  video_prompt : String
  episode_arc_summary : String
  deriving Repr, DecidableEq

/-- Insertion step of an `ORDER BY scene_number DESC` sort. -/
def insertByNumDesc (r : RecentScene) : List RecentScene → List RecentScene
  | [] => [r]
  | t :: rest =>
    if t.scene_number ≤ r.scene_number then r :: t :: rest
    else t :: insertByNumDesc r rest

/-- `ORDER BY scene_number DESC` as an insertion sort. -/
def sortByNumDesc (l : List RecentScene) : List RecentScene :=
  l.foldr insertByNumDesc []

/-- `CanonMemory.get_recent_scenes`: `SELECT s.*, e.episode_number,
e.episode_arc_summary FROM scenes s JOIN episodes e ON s.episode_id = e.id
ORDER BY s.scene_number DESC LIMIT $1`. -/
def get_recent_scenes (db : DB) (limit : Nat := 100) : List RecentScene :=
  (sortByNumDesc (db.scenes.filterMap (fun s =>
    (db.episodes.find? (fun e => e.id == s.episode_id)).map (fun e =>
      { scene_number := s.scene_number, episode_number := e.episode_number
        scene_in_episode := s.scene_in_episode
        narrative_summary := s.narrative_summary, video_prompt := s.video_prompt
        episode_arc_summary := e.episode_arc_summary })))).take limit

/-- Model of the Python slice `l[-10:]` (the last ten elements). -/
def lastTen (l : List RecentScene) : List RecentScene :=
  l.drop (l.length - 10)

/-- The f-string rendering one recent scene in `build_director_context`. -/
def renderRecentEvent (r : RecentScene) : String :=
  "Scene " ++ toString r.scene_number ++ " (Ep " ++ toString r.episode_number ++
  ", Scene " ++ toString r.scene_in_episode ++ "): " ++ r.narrative_summary

/-- The `recent_events` entry of `CanonMemory.build_director_context`:
`recent_scenes = get_recent_scenes(limit=100)` (scene_number DESCENDING),
then render `recent_scenes[-10:]` — the LAST ten rows of that
descending list. -/
def build_director_context_recent_events (db : DB) : List String :=
  (lastTen (get_recent_scenes db 100)).map renderRecentEvent

/-! ### `Orchestrator` (src/main.py) -/

/-- One scene of a parsed episode plan, as consumed by the orchestrator. -/
structure ScenePlan where
  scene_in_episode : Nat
  video_prompt : String
  narrative_summary : String
  deriving Repr, DecidableEq

/-- An episode plan, as consumed by the orchestrator (plans that introduce no
new characters; the character step of `generate_episode` is skipped for such
plans and is not touched by any claim). -/
structure EpisodePlan where
  episode_summary : String
  scenes : List ScenePlan
  deriving Repr, DecidableEq

/-- Orchestrator state: the database plus the trace of prompts sent to the
video generator, in call order (instrumentation of
`self.video_generator.generate_video`). -/
structure OrchSt where
  db : DB
  synthLog : List String
  deriving Repr, DecidableEq

/-- The global `shutdown_flag` is set once by the signal handler and never
cleared, so it is modelled by a cut-off `cutoff`: the flag reads true at the
`k`-th sample point iff `cutoff ≤ k`. Sample points are numbered in order:
the check at the top of each iteration of the scene loop, and the final check
before `complete_episode` (the per-second re-checks inside the inter-scene
wait have no state effect; a flag set during the wait is exactly a flag that
reads true at the next loop-top sample). -/
def flagAt (cutoff k : Nat) : Bool := cutoff ≤ k

/-- The body of one iteration of the scene loop of
`Orchestrator.generate_episode`: create the scene row, synthesize the clip
(`synth` — total, since `generate_video` never raises), and complete the
scene. -/
def sceneStep (synth : String → VideoResult) (episode_id global_scene_number : Nat)
    (sp : ScenePlan) (st : OrchSt) : OrchSt :=
  let r := create_scene st.db episode_id global_scene_number
    sp.scene_in_episode sp.video_prompt sp.narrative_summary "" 30
  let vres := synth sp.video_prompt
  { db := complete_scene r.1 r.2 vres.video_url vres.cost 0
    synthLog := st.synthLog ++ [sp.video_prompt] }

/-- The scene loop of `Orchestrator.generate_episode` (`for scene_plan in
episode_plan["scenes"]`). Arguments: the remaining scene plans, the running
`global_scene_number`, the current sample-point index, and the state.
Returns the state, the next sample-point index, and whether the loop was
aborted by the shutdown flag. Each iteration samples the flag (returning when
set) and otherwise runs `sceneStep`. -/
def sceneLoop (cutoff : Nat) (synth : String → VideoResult) (episode_id : Nat) :
    List ScenePlan → Nat → Nat → OrchSt → OrchSt × Nat × Bool
  | [], _, t, st => (st, t, false)
  | sp :: rest, global_scene_number, t, st =>
    if flagAt cutoff t then (st, t, true)
    else
      sceneLoop cutoff synth episode_id rest (global_scene_number + 1) (t + 1)
        (sceneStep synth episode_id global_scene_number sp st)

/-- Stand-in for `str(episode_plan)`, the opaque plan blob stored on the
episode row (never read back). -/
def planBlob (plan : EpisodePlan) : String := "str(plan):" ++ plan.episode_summary

/-- `Orchestrator.generate_episode`: read the series state (capturing
`total_scenes` BEFORE any scene is generated), set the status to
`planning_episode`, invoke the planner (`planRes` is the outcome of
`self.director.plan_episode`), and on success log the plan, idempotently
create the episode row, run the scene loop from `global_scene_number =
state["total_scenes"] + 1`, and — unless the shutdown flag is set — complete
the episode and advance `current_episode`. Any planner exception lands in the
`except` branch: status `error` plus a logged event, and the function
returns. -/
def generate_episode (planRes : Except String EpisodePlan) (cutoff : Nat)
    (synth : String → VideoResult) (st : OrchSt) : OrchSt :=
  let state0 := st.db.series
  let episode_number := state0.current_episode
  let db1 := update_series_state st.db none none none none (some "planning_episode")
  match planRes with
  | .error e =>
    let db2 := update_series_state db1 none none none none (some "error")
    let db3 := log_generation_event db2 none "ERROR" "orchestrator"
      ("Episode generation failed: " ++ e) (some e)
    { st with db := db3 }
  | .ok plan =>
    let db2 := log_generation_event db1 none "INFO" "director"
      ("Planned episode " ++ toString episode_number ++ ": " ++ plan.episode_summary)
    let r := start_episode db2 episode_number (planBlob plan) plan.episode_summary
    let lr := sceneLoop cutoff synth r.2 plan.scenes (state0.total_scenes + 1) 0
      { st with db := r.1 }
    if lr.2.2 then lr.1
    else if flagAt cutoff lr.2.1 then lr.1
    else
      let db4 := complete_episode lr.1.db r.2
      let db5 := update_series_state db4 (some (episode_number + 1)) (some 1)
        none none (some "idle")
      { lr.1 with db := db5 }

/-- `Orchestrator.run`: `while not shutdown_flag: generate_episode(); wait`,
then the `finally:` cleanup. The while condition and the inter-episode wait
only determine how many episode attempts run before shutdown, so the loop is
modelled by a list of attempts (each with its planner outcome and its
shutdown cut-off); the `finally:` block unconditionally writes
`system_status = "idle"` (and disconnects, which has no modelled effect). -/
def orchestrator_run (attempts : List (Except String EpisodePlan × Nat))
    (synth : String → VideoResult) (st : OrchSt) : OrchSt :=
  let st1 := attempts.foldl (fun s a => generate_episode a.1 a.2 synth s) st
  { st1 with db := update_series_state st1.db none none none none (some "idle") }

/-! ### `Director._parse_episode_plan` (src/director.py) -/

/-- JSON values, as produced by `json.loads`. -/
inductive JValue where
  | jstr (s : String)
  | jnum (n : Int)
  | jbool (b : Bool)
  | jnull
  | jarr (elems : List JValue)
  | jobj (fields : List (String × JValue))

/-- Dictionary lookup (`key in plan` / `plan[key]`). -/
def jlookup (fields : List (String × JValue)) (key : String) : Option JValue :=
  (fields.find? (fun kv => kv.1 == key)).map (fun kv => kv.2)

/-- Dictionary assignment `d[key] = v`. -/
def jset (fields : List (String × JValue)) (key : String) (v : JValue) :
    List (String × JValue) :=
  if (fields.find? (fun kv => kv.1 == key)).isSome then
    fields.map (fun kv => if kv.1 == key then (kv.1, v) else kv)
  else fields ++ [(key, v)]

/-- The fence-stripping step of `_parse_episode_plan`: when the response
contains ```` ```json ```` take the text between it and the next ```` ``` ````
and strip it; otherwise, when it contains ```` ``` ````, the text between the
first two fences; otherwise the response unchanged. A missing closing fence
reproduces Python's `content[start:-1]` (drop the final character). -/
def stripFence (cs : List Char) : List Char :=
  let fenceJson := "```json".data
  let fence := "```".data
  match findSub fenceJson cs with
  | some i =>
    let rest := cs.drop (i + 7)
    pyStrip (match findSub fence rest with
      | some j => rest.take j
      | none => rest.dropLast)
  | none =>
    match findSub fence cs with
    | some i =>
      let rest := cs.drop (i + 3)
      pyStrip (match findSub fence rest with
        | some j => rest.take j
        | none => rest.dropLast)
    | none => cs

/-- String-level wrapper of `stripFence`. -/
def stripFenceStr (content : String) : String := ⟨stripFence content.data⟩

/-- Python equality of a JSON value against a string, as used by `"k" in
some_list`: only equal strings compare equal. -/
def jStrEq : JValue → String → Bool
  | .jstr s, k => s == k
  | _, _ => false

/-- Python's `key in value` on a value produced by `json.loads`: key
membership on a dict, SUBSTRING containment on a str, element equality on a
list; `none` models the `TypeError` raised for numbers, booleans and
`None`. -/
def jContains (key : String) : JValue → Option Bool
  | .jobj fs => some (jlookup fs key).isSome
  | .jstr s => some (hasSub key.data s.data)
  | .jarr elems => some (elems.any (fun e => jStrEq e key))
  | .jnum _ => none
  | .jbool _ => none
  | .jnull => none

/-- Python's `len(value)`: element count of a list, character count of a str,
key count of a dict (objects from `json.loads` have distinct keys); `none`
models the `TypeError` for the other types. -/
def jLen : JValue → Option Nat
  | .jarr elems => some elems.length
  | .jstr s => some s.data.length
  | .jobj fs => some fs.length
  | _ => none

/-- Python's iteration over the same container kinds `len` accepts: a list
yields its elements, a str its characters (as one-character strings), a dict
its keys (as strings). Only reached after `jLen` succeeded, so the default
`[]` branch is unreachable in `validate_plan`. -/
def jIter : JValue → List JValue
  | .jarr elems => elems
  | .jstr s => s.data.map (fun c => .jstr (String.mk [c]))
  | .jobj fs => fs.map (fun kv => .jstr kv.1)
  | _ => []

/-- The per-scene step of the validation loop (`for i, scene in
enumerate(plan["scenes"], 1)`), with Python membership semantics: the
`"scene_in_episode" not in scene` test raises for non-container scenes; a
scene that lacks it gets it assigned (which itself raises unless the scene is
a dict); then `"video_prompt" not in scene or "narrative_summary" not in
scene` raises the `ValueError`. In particular a scene that is a STRING
containing all three key names as substrings passes. -/
def validate_scene (i : Nat) (scene : JValue) : Except String JValue :=
  match jContains "scene_in_episode" scene with
  | none => .error ("TypeError: scene " ++ toString i ++ " is not iterable")
  | some hasSie =>
    match (if hasSie then Except.ok scene
           else match scene with
                | .jobj fs => Except.ok (JValue.jobj (jset fs "scene_in_episode" (.jnum i)))
                | _ => Except.error ("TypeError: scene " ++ toString i ++
                    " does not support item assignment")) with
    | .error e => .error e
    | .ok scene1 =>
      if ((jContains "video_prompt" scene1).getD false) &&
          ((jContains "narrative_summary" scene1).getD false) then .ok scene1
      else .error ("Scene " ++ toString i ++ " missing required fields")

/-- The validation loop over the iterated scenes, numbered from `i`. -/
def validate_scenes (i : Nat) : List JValue → Except String (List JValue)
  | [] => .ok []
  | s :: rest =>
    match validate_scene i s with
    | .error e => .error e
    | .ok s1 =>
      match validate_scenes (i + 1) rest with
      | .error e => .error e
      | .ok rest1 => .ok (s1 :: rest1)

/-- The structural validation of `_parse_episode_plan` after `json.loads`.
The top level must be a dict: a str or list top level may pass the membership
test but then raises on the string subscript `plan["scenes"]`, and the other
types raise on the membership test itself. The `scenes` value is any
container `len` accepts — list, str or dict — with exactly 6 iterated
elements, each passing `validate_scene`; only a list has its (in-place
mutated) elements written back. The validated plan gets `episode_number`
stamped on it. -/
def validate_plan (j : JValue) (episode_number : Nat) : Except String JValue :=
  match j with
  | .jobj fields =>
    if (jlookup fields "episode_summary").isSome && (jlookup fields "scenes").isSome then
      match jlookup fields "scenes" with
      | some scenes =>
        match jLen scenes with
        | none => .error "TypeError: scenes has no len()"
        | some n =>
          if n == 6 then
            match validate_scenes 1 (jIter scenes) with
            | .error e => .error e
            | .ok elems1 =>
              let scenes1 := match scenes with
                | .jarr _ => JValue.jarr elems1
                | other => other
              .ok (.jobj (jset (jset fields "scenes" scenes1) "episode_number"
                (.jnum episode_number)))
          else .error ("Expected 6 scenes, got " ++ toString n)
      | none => .error "Missing required fields in episode plan"
    else .error "Missing required fields in episode plan"
  | .jstr _ => .error "TypeError: string indices must be integers"
  | .jarr _ => .error "TypeError: list indices must be integers"
  | _ => .error "TypeError: argument is not iterable"

/-- `Director._parse_episode_plan`: strip incidental markdown fencing, run
`json.loads` on the result (`loads` is the oracle for the Python JSON
parser; `none` models a `JSONDecodeError`), then validate structurally.
Every failure is re-raised to the caller (the spec's `PlanningError`). -/
def parse_episode_plan (loads : String → Option JValue) (content : String)
    (episode_number : Nat) : Except String JValue :=
  match loads (stripFenceStr content) with
  | none => .error "Director returned invalid JSON"
  | some j => validate_plan j episode_number

/-- Whether an `Except` is a success. -/
def exceptOk {ε α : Type} : Except ε α → Bool
  | .ok _ => true
  | .error _ => false

/-- Modelled from the spec: a response parses into the required structure
with exactly six scenes — an object carrying `episode_summary` and a
`scenes` list of length 6 whose members each carry `video_prompt` and
`narrative_summary`. Used to compare `_parse_episode_plan` against the
spec's description of when planning fails. -/
def spec_valid_scene : JValue → Bool
  | .jobj fs => (jlookup fs "video_prompt").isSome && (jlookup fs "narrative_summary").isSome
  | _ => false

/-- Modelled from the spec: the whole-plan structural requirement (see
`spec_valid_scene`). -/
def spec_valid_plan : JValue → Bool
  | .jobj fields =>
    (jlookup fields "episode_summary").isSome &&
    (match jlookup fields "scenes" with
     | some (.jarr scenes) => scenes.length == 6 && scenes.all spec_valid_scene
     | _ => false)
  | _ => false

/-- The success set of the code's per-scene validation, stated declaratively:
a dict scene needs the two prompt keys; a str scene needs all three key names
as SUBSTRINGS (otherwise either the item assignment or the field check
raises); a list scene needs all three key names as elements; nothing else
passes. -/
def py_valid_scene : JValue → Bool
  | .jobj fs => (jlookup fs "video_prompt").isSome && (jlookup fs "narrative_summary").isSome
  | .jstr s => hasSub "scene_in_episode".data s.data && hasSub "video_prompt".data s.data &&
      hasSub "narrative_summary".data s.data
  | .jarr elems => (elems.any (fun e => jStrEq e "scene_in_episode")) &&
      (elems.any (fun e => jStrEq e "video_prompt")) &&
      (elems.any (fun e => jStrEq e "narrative_summary"))
  | _ => false

/-- The success set of the code's whole-plan validation, stated
declaratively: a dict with `episode_summary` and a `scenes` container whose
`len` is 6 and whose 6 iterated elements each satisfy `py_valid_scene`. A
strict superset of `spec_valid_plan`. -/
def py_valid_plan : JValue → Bool
  | .jobj fields =>
    (jlookup fields "episode_summary").isSome &&
    (match jlookup fields "scenes" with
     | some scenes =>
       (match jLen scenes with
        | some n => n == 6 && (jIter scenes).all py_valid_scene
        | none => false)
     | none => false)
  | _ => false

/-! ### Derived observations and concrete fixtures used by the theorems -/

/-- The committed scene numbers, in row order. -/
def sceneNumbers (db : DB) : List Nat := db.scenes.map (fun s => s.scene_number)

/-- The `total_cost_usd` column of the episode with database id `episode_id`. -/
def episode_total_cost (db : DB) (episode_id : Nat) : Option ℚ :=
  (db.episodes.find? (fun e => e.id == episode_id)).bind (fun e => e.total_cost_usd)

/-- Sum of the costs of an episode's COMPLETED scenes (the quantity the spec
says `complete_episode` must reproduce). -/
def completed_scene_cost_sum (db : DB) (episode_id : Nat) : ℚ :=
  ((db.scenes.filter (fun s => s.episode_id == episode_id && s.completed)).map
    (fun s => s.generation_cost_usd.getD 0)).sum

/-- The freshly provisioned database: `database.py` initializes
`series_state` to `(1, 1, 0, 0)` with status idle and empty tables. -/
def initialState : OrchSt :=
  { db := { episodes := [], scenes := [], logs := []
            series := { current_episode := 1, current_scene_in_episode := 1
                        total_scenes := 0, total_episodes := 0, system_status := "idle" }
            next_episode_id := 1, next_scene_id := 1 }
    synthLog := [] }

/-- A concrete mock video generator (`MockVideoGenerator`-style: always
succeeds, per-scene cost 1). -/
def synthMock : String → VideoResult :=
  fun p => { video_url := "v:" ++ p, duration := 30, cost := 1 }

/-- A concrete six-scene episode plan. -/
def plan6 : EpisodePlan :=
  { episode_summary := "ep1"
    scenes := [⟨1, "p1", "n1"⟩, ⟨2, "p2", "n2"⟩, ⟨3, "p3", "n3"⟩,
               ⟨4, "p4", "n4"⟩, ⟨5, "p5", "n5"⟩, ⟨6, "p6", "n6"⟩] }

/-- The C2 scenario, first run: the shutdown flag becomes set during the
inter-scene wait after scene 2 (cut-off 2: the flag reads false at the checks
before scenes 1 and 2, true at the check before scene 3). -/
def shutdownRun : OrchSt := generate_episode (.ok plan6) 2 synthMock initialState

/-- The C2 scenario, second run: the orchestrator resumes later with the flag
never set. -/
def resumeRun : OrchSt := generate_episode (.ok plan6) 99 synthMock shutdownRun

/-- A completed scene row for the C7 fixture. -/
def mkScene (num eid sie : Nat) : SceneRow :=
  { id := num, scene_number := num, episode_id := eid, scene_in_episode := sie
    video_url := "u", duration_seconds := 30, video_prompt := "vp"
    narrative_summary := "n" ++ toString num, generation_cost_usd := some 1
    retry_count := 0, completed := true }

/-- The C7 fixture: 11 committed scenes (numbers 1–11), scenes 1–6 in episode
1 and scenes 7–11 in episode 2. -/
def db11 : DB :=
  { episodes :=
      [{ id := 1, episode_number := 1, director_plan := "d1"
         episode_arc_summary := "arc1", completed := true, total_cost_usd := some 6 },
       { id := 2, episode_number := 2, director_plan := "d2"
         episode_arc_summary := "arc2", completed := false, total_cost_usd := none }]
    scenes :=
      [mkScene 1 1 1, mkScene 2 1 2, mkScene 3 1 3, mkScene 4 1 4, mkScene 5 1 5,
       mkScene 6 1 6, mkScene 7 2 1, mkScene 8 2 2, mkScene 9 2 3, mkScene 10 2 4,
       mkScene 11 2 5]
    logs := []
    series := { current_episode := 2, current_scene_in_episode := 5
                total_scenes := 11, total_episodes := 1, system_status := "idle" }
    next_episode_id := 3, next_scene_id := 12 }

/-- A concrete database for exercising `complete_episode`: episode 1 with two
completed scenes (costs 2 and 3), one unfinished scene, and one completed
scene belonging to another episode. -/
def dbC3 : DB :=
  { episodes :=
      [{ id := 1, episode_number := 1, director_plan := "d"
         episode_arc_summary := "a", completed := false, total_cost_usd := none }]
    scenes :=
      [{ id := 1, scene_number := 1, episode_id := 1, scene_in_episode := 1
         video_url := "u1", duration_seconds := 30, video_prompt := "p1"
         narrative_summary := "n1", generation_cost_usd := some 2
         retry_count := 0, completed := true },
       { id := 2, scene_number := 2, episode_id := 1, scene_in_episode := 2
         video_url := "u2", duration_seconds := 30, video_prompt := "p2"
         narrative_summary := "n2", generation_cost_usd := some 3
         retry_count := 1, completed := true },
       { id := 3, scene_number := 3, episode_id := 1, scene_in_episode := 3
         video_url := "", duration_seconds := 30, video_prompt := "p3"
         narrative_summary := "n3", generation_cost_usd := none
         retry_count := 0, completed := false },
       { id := 4, scene_number := 4, episode_id := 2, scene_in_episode := 1
         video_url := "u4", duration_seconds := 30, video_prompt := "p4"
         narrative_summary := "n4", generation_cost_usd := some 5
         retry_count := 0, completed := true }]
    logs := []
    series := { current_episode := 1, current_scene_in_episode := 3
                total_scenes := 3, total_episodes := 0, system_status := "generating_scene" }
    next_episode_id := 2, next_scene_id := 5 }

/-- A model response whose six "scenes" are STRINGS that merely contain the
three key names as substrings. Not the spec's required structure, yet it
passes the code's membership-based validation. -/
def trickScene : JValue :=
  .jstr "scene_in_episode video_prompt narrative_summary"

/-- The whole trick plan built from `trickScene` (see `trickScene`). -/
def trickPlan : JValue :=
  .jobj [("episode_summary", .jstr "s"),
         ("scenes", .jarr [trickScene, trickScene, trickScene,
                           trickScene, trickScene, trickScene])]

/-- A well-formed scene object, for exercising the happy path. -/
def goodScene : JValue :=
  .jobj [("scene_in_episode", .jnum 1), ("video_prompt", .jstr "vp"),
         ("narrative_summary", .jstr "ns")]

/-- A plan of the spec's required structure (six scene objects). -/
def goodPlan : JValue :=
  .jobj [("episode_summary", .jstr "s"),
         ("scenes", .jarr [goodScene, goodScene, goodScene,
                           goodScene, goodScene, goodScene])]

/-! ## Helper lemmas -/

theorem hasSub_nil_pat (l : List Char) : hasSub [] l = true := by
  cases l <;> simp [hasSub, findSub, List.isPrefixOf]

theorem isPrefixOf_append_right {l m : List Char} (r : List Char)
    (h : l.isPrefixOf m = true) : l.isPrefixOf (m ++ r) = true := by
  rw [List.isPrefixOf_iff_prefix] at h ⊢
  exact h.trans (List.prefix_append m r)

theorem hasSub_append_right {pat a : List Char} (b : List Char)
    (h : hasSub pat a = true) : hasSub pat (a ++ b) = true := by
  induction a with
  | nil =>
    have hp : pat = [] := by
      by_cases he : pat.isEmpty = true
      · exact List.isEmpty_iff.mp he
      · rw [hasSub, findSub, if_neg he] at h
        exact absurd h (by simp)
    subst hp
    exact hasSub_nil_pat b
  | cons c a ih =>
    rw [List.cons_append]
    by_cases hpre2 : pat.isPrefixOf (c :: (a ++ b)) = true
    · rw [hasSub, findSub, if_pos hpre2]
      rfl
    · have hpre : ¬ pat.isPrefixOf (c :: a) = true := by
        intro hph
        have h2 : pat.isPrefixOf ((c :: a) ++ b) = true := isPrefixOf_append_right b hph
        rw [List.cons_append] at h2
        exact hpre2 h2
      rw [hasSub, findSub, if_neg hpre] at h
      rw [hasSub, findSub, if_neg hpre2]
      cases hf : findSub pat a with
      | none => rw [hf] at h; exact absurd h (by simp)
      | some v =>
        have ha : hasSub pat a = true := by rw [hasSub, hf]; rfl
        have hb := ih ha
        rw [hasSub] at hb
        cases hg : findSub pat (a ++ b) with
        | none => rw [hg] at hb; exact absurd hb (by simp)
        | some w => rfl

theorem string_data_append (a b : String) : (a ++ b).data = a.data ++ b.data := rfl

/-- The enriched prompt produced by `_enhance_prompt_for_anime` always
declares the anime aesthetic (its prefix contains the word "anime"). -/
theorem enhanced_declares_anime (p : String) :
    containsLower ("High-quality anime style animation: " ++ p ++
      ". Japanese animation aesthetic, vibrant colors, expressive characters, smooth motion, cinematic composition.")
      "anime" = true := by
  unfold containsLower pyLower
  rw [string_data_append, string_data_append, List.map_append, List.map_append,
    List.append_assoc]
  exact hasSub_append_right _ (by decide)

/-! ## C8 — prompt enhancement is idempotent -/

/-- C8: prompt enhancement is idempotent — `enhance(enhance(p)) = enhance(p)`
for every prompt, and a prompt that already declares the target aesthetic
(contains "anime" or "animated" case-insensitively) is returned unchanged. -/
theorem C8_enhance_idempotent :
    (∀ p : String,
      enhance_prompt_for_anime (enhance_prompt_for_anime p) = enhance_prompt_for_anime p)
    ∧ (∀ p : String, (containsLower p "anime" || containsLower p "animated") = true →
        enhance_prompt_for_anime p = p) := by
  constructor
  · intro p
    by_cases h : (containsLower p "anime" || containsLower p "animated") = true
    · have hp : enhance_prompt_for_anime p = p := by
        rw [enhance_prompt_for_anime, if_pos h]
      rw [hp]
      exact hp
    · have hE : enhance_prompt_for_anime p = "High-quality anime style animation: " ++ p ++
          ". Japanese animation aesthetic, vibrant colors, expressive characters, smooth motion, cinematic composition." := by
        rw [enhance_prompt_for_anime, if_neg h]
      rw [hE]
      have hdecl : (containsLower ("High-quality anime style animation: " ++ p ++
          ". Japanese animation aesthetic, vibrant colors, expressive characters, smooth motion, cinematic composition.")
          "anime" || containsLower ("High-quality anime style animation: " ++ p ++
          ". Japanese animation aesthetic, vibrant colors, expressive characters, smooth motion, cinematic composition.")
          "animated") = true := by
        rw [enhanced_declares_anime p, Bool.true_or]
      rw [enhance_prompt_for_anime, if_pos hdecl]
  · intro p h
    rw [enhance_prompt_for_anime, if_pos h]

/-- C8 witness: a concrete prompt satisfying the hypothesis of the second
conjunct, run through the theorem. -/
theorem C8_enhance_idempotent_witness :
    enhance_prompt_for_anime (enhance_prompt_for_anime "a duel at dawn") =
      enhance_prompt_for_anime "a duel at dawn"
    ∧ (containsLower "anime duel" "anime" || containsLower "anime duel" "animated") = true
    ∧ enhance_prompt_for_anime "anime duel" = "anime duel" :=
  ⟨C8_enhance_idempotent.1 "a duel at dawn", by decide,
   C8_enhance_idempotent.2 "anime duel" (by decide)⟩

/-! ## C9 — log_generation_event and persistence failures -/

/-- C9 counterexample: `log_generation_event` has no exception handler, so
when the underlying `db.execute` fails the exception propagates to the
caller — the claim that it never raises is false. -/
theorem C9_counterexample :
    log_generation_event_db false initialState.db none "ERROR" "orchestrator"
        "Episode generation failed: boom" (some "boom") =
      .error "PersistenceError: storage unavailable"
    ∧ exceptOk (log_generation_event_db false initialState.db none "ERROR" "orchestrator"
        "Episode generation failed: boom" (some "boom")) = false := by
  constructor <;> rfl

/-- C9 amended: `log_generation_event` performs a single append-only INSERT;
when persistence succeeds it appends exactly one row (prior rows preserved)
and raises nothing, but when the underlying persistence operation fails the
failure propagates to its caller. -/
theorem C9_log_event :
    ∀ (db : DB) (sn : Option Nat) (lv comp msg : String) (err : Option String),
      log_generation_event_db true db sn lv comp msg err =
        .ok { db with logs := db.logs ++
          [{ scene_number := sn, log_level := lv, component := comp
             message := msg, error_details := err }] }
      ∧ log_generation_event_db false db sn lv comp msg err =
          .error "PersistenceError: storage unavailable" := by
  intro db sn lv comp msg err
  constructor <;> rfl

/-! ## C10 — the run loop's cleanup always restores idle -/

/-- C10: on every exit of the orchestrator run loop the `finally:` cleanup
unconditionally sets `system_status` to "idle"; in particular an "error"
status recorded by a failed episode attempt does not survive shutdown. -/
theorem C10_run_cleanup_idle :
    (∀ (attempts : List (Except String EpisodePlan × Nat))
       (synth : String → VideoResult) (st : OrchSt),
       (orchestrator_run attempts synth st).db.series.system_status = "idle")
    ∧ (generate_episode (.error "boom") 0 synthMock initialState).db.series.system_status
        = "error"
    ∧ (orchestrator_run [(.error "boom", 0)] synthMock initialState).db.series.system_status
        = "idle" := by
  refine ⟨?_, by decide, by decide⟩
  intro attempts synth st
  rfl

/-! ## C5 — idempotent episode/scene creation -/

/-- C5: `start_episode` and `create_scene` are idempotent — for any database,
calling `start_episode` again with the same `episode_number` (any plan
arguments) returns the same `(database, id)` pair as the first call produced,
i.e. the same id with no new row, no state change and no error; likewise
`create_scene` keyed by `scene_number`. -/
theorem C5_creation_idempotent :
    (∀ (db : DB) (n : Nat) (p s p' s' : String),
       start_episode (start_episode db n p s).1 n p' s' = start_episode db n p s)
    ∧ (∀ (db : DB) (eid sn sie : Nat) (vp ns : String) (eid' sie' : Nat) (vp' ns' : String),
       create_scene (create_scene db eid sn sie vp ns).1 eid' sn sie' vp' ns' =
         create_scene db eid sn sie vp ns) := by
  constructor
  · intro db n p s p' s'
    cases h : db.episodes.find? (fun e => e.episode_number == n) with
    | some e => simp [start_episode, h]
    | none =>
      simp only [start_episode, h, update_series_state]
      rw [List.find?_append, h]
      simp [List.find?]
  · intro db eid sn sie vp ns eid' sie' vp' ns'
    cases h : db.scenes.find? (fun x => x.scene_number == sn) with
    | some x => simp [create_scene, h]
    | none =>
      simp only [create_scene, h, update_series_state]
      rw [List.find?_append, h]
      simp [List.find?]

/-! ## C4 — graceful degradation and uniform cost -/

/-- C4 helper: a successful run of the `try:` body always prices the scene at
`3 × $0.70 = $2.10`. -/
theorem generate_video_attempt_cost
    (gen : String → Nat → Except String String) (dl : String → Bool)
    (ffmpegOk : Bool) (p : String) (d : Nat) (r : VideoResult)
    (h : generate_video_attempt gen dl ffmpegOk p d = .ok r) :
    r.cost = 21 / 10 := by
  simp only [generate_video_attempt] at h
  split at h
  · exact absurd h (by simp)
  · split at h
    · exact absurd h (by simp)
    · simp only [Except.ok.injEq] at h
      rw [← h]
      norm_num

/-- C4 counterexample: the fallback artifact is NOT deterministic — the same
failing request at two different wall-clock times yields two different
placeholder artifacts (the URL embeds `time.time()`). There is also no strict
mode anywhere in `generate_video`: no caller can make the failure
propagate. -/
theorem C4_counterexample :
    generate_video (fun _ _ => .error "api error") (fun _ => true) true 1 "p" 30 ≠
      generate_video (fun _ _ => .error "api error") (fun _ => true) true 2 "p" 30 := by
  decide

/-- C4 amended: any step failure inside `generate_video` yields a placeholder
artifact (whose URL embeds the current time, so it is not deterministic
across retries) with approximate cost $2.10 instead of propagating an
exception; there is no strict mode, so failures never propagate; and the
reported cost equals the per-segment rate × 3 (the fixed segment count) on
every path, including the fallback path. -/
theorem C4_degraded_fallback :
    (∀ (gen : String → Nat → Except String String) (dl : String → Bool)
       (ffmpegOk : Bool) (now : Nat) (p : String) (d : Nat),
       (generate_video gen dl ffmpegOk now p d).cost = 21 / 10)
    ∧ (∀ (gen : String → Nat → Except String String) (dl : String → Bool)
         (ffmpegOk : Bool) (now : Nat) (p : String) (d : Nat) (e : String),
         generate_video_attempt gen dl ffmpegOk p d = .error e →
         generate_video gen dl ffmpegOk now p d =
           { video_url := "mock://video/" ++ toString now ++ ".mp4"
             duration := d, cost := 21 / 10 }) := by
  constructor
  · intro gen dl ff now p d
    unfold generate_video
    cases h : generate_video_attempt gen dl ff p d with
    | ok r => exact generate_video_attempt_cost gen dl ff p d r h
    | error e =>
      show (210 / 100 : ℚ) = 21 / 10
      norm_num
  · intro gen dl ff now p d e h
    unfold generate_video
    rw [h, show (210 / 100 : ℚ) = 21 / 10 from by norm_num]

/-- C4 witness: a concrete failing submission, run through the theorem. -/
theorem C4_degraded_fallback_witness :
    generate_video_attempt (fun _ _ => .error "api error") (fun _ => true) true "p" 30 =
      .error "api error"
    ∧ generate_video (fun _ _ => .error "api error") (fun _ => true) true 5 "p" 30 =
      { video_url := "mock://video/5.mp4", duration := 30, cost := 21 / 10 } :=
  ⟨rfl, C4_degraded_fallback.2 _ _ true 5 "p" 30 "api error" rfl⟩

/-! ## C1 — segmentation, ordering and what gets published -/

set_option maxRecDepth 8192 in
/-- C1 counterexample: for a 20-second request with the provider's 10-second
segments the claim demands `ceil(20/10) = 2` segments, but the code's
segment count is hard-wired to 3: with downloads failing only on the third
segment's URL the pipeline still fails (it processed a clip 3), and on a
fully successful run the published URL is the FIRST segment's artifact — the
`clip_urls[0]` placeholder — not the concatenation output. -/
theorem C1_counterexample :
    generate_video_attempt (fun q _ => .ok ("u:" ++ q))
        (fun u => !(u == "u:" ++ adapt_prompt_for_segment
          (enhance_prompt_for_anime "p") 3 3)) true "p" 20 =
      .error "Failed to download clip 3"
    ∧ (20 + 10 - 1) / 10 = 2
    ∧ generate_video (fun q _ => .ok ("u:" ++ q)) (fun _ => true) true 7 "p" 20 =
      { video_url :=
          "u:" ++ adapt_prompt_for_segment (enhance_prompt_for_anime "p") 1 3
        duration := 20, cost := 21 / 10 } := by
  refine ⟨rfl, rfl, ?_⟩
  show VideoResult.mk _ _ ((3 : ℚ) * (70 / 100)) = _
  rw [show ((3 : ℚ) * (70 / 100)) = 21 / 10 from by norm_num]

/-- C1 amended: for every requested duration `generate_video` splits the
request into exactly 3 segments of 10 seconds (which equals `ceil(D/L)` only
for the default D = 30, L = 10), submits and synthesizes them in order
(segment 1 opening, 2 continuation, 3 conclusion), runs the concatenation
over all three artifacts in submission order, and publishes the FIRST
segment's URL as a placeholder for the unimplemented upload of the
concatenated artifact. -/
theorem C1_fixed_three_segments :
    ∀ (urlOf : String → String) (now : Nat) (p : String) (d : Nat),
      genClips (fun q _ => .ok (urlOf q)) (enhance_prompt_for_anime p) 3 10
          (List.range' 1 3) =
        .ok [urlOf (adapt_prompt_for_segment (enhance_prompt_for_anime p) 1 3),
             urlOf (adapt_prompt_for_segment (enhance_prompt_for_anime p) 2 3),
             urlOf (adapt_prompt_for_segment (enhance_prompt_for_anime p) 3 3)]
      ∧ concatenate_clips (fun _ => true) true
          [urlOf (adapt_prompt_for_segment (enhance_prompt_for_anime p) 1 3),
           urlOf (adapt_prompt_for_segment (enhance_prompt_for_anime p) 2 3),
           urlOf (adapt_prompt_for_segment (enhance_prompt_for_anime p) 3 3)] =
        .ok (urlOf (adapt_prompt_for_segment (enhance_prompt_for_anime p) 1 3))
      ∧ generate_video (fun q _ => .ok (urlOf q)) (fun _ => true) true now p d =
        { video_url := urlOf (adapt_prompt_for_segment (enhance_prompt_for_anime p) 1 3)
          duration := d, cost := 21 / 10 } := by
  intro urlOf now p d
  refine ⟨rfl, rfl, ?_⟩
  show VideoResult.mk _ _ ((3 : ℚ) * (70 / 100)) = _
  rw [show ((3 : ℚ) * (70 / 100)) = 21 / 10 from by norm_num]

/-! ## C3 — complete_episode recomputes the exact cost -/

/-- On rows where the cost column is set exactly for completed scenes, summing
`COALESCE(cost, 0)` over an episode's scenes equals summing over the
episode's COMPLETED scenes only. -/
theorem cost_sum_completed (eid : Nat) (l : List SceneRow) :
    (∀ s ∈ l, s.generation_cost_usd.isSome = s.completed) →
    ((l.filter (fun s => s.episode_id == eid)).map
      (fun s => s.generation_cost_usd.getD 0)).sum =
    ((l.filter (fun s => s.episode_id == eid && s.completed)).map
      (fun s => s.generation_cost_usd.getD 0)).sum := by
  induction l with
  | nil => intro h; rfl
  | cons s l ih =>
    intro h
    have hs := h s (List.mem_cons_self s l)
    have hl := ih (fun x hx => h x (List.mem_cons_of_mem s hx))
    by_cases he : (s.episode_id == eid) = true
    · by_cases hc : s.completed = true
      · simp [List.filter_cons, he, hc, hl]
      · have hnone : s.generation_cost_usd = none := by
          cases ho : s.generation_cost_usd with
          | none => rfl
          | some v =>
            rw [ho] at hs
            exact absurd hs.symm (by simp [hc])
        simp [List.filter_cons, he, hc, hnone, hl]
    · simp [List.filter_cons, he, hl]

/-- `List.find?` commutes with mapping a function that does not change the
predicate's verdict. -/
theorem find?_map_preserving {α : Type} (f : α → α) (p : α → Bool)
    (hf : ∀ x, p (f x) = p x) (l : List α) :
    (l.map f).find? p = (l.find? p).map f := by
  rw [List.find?_map]
  have hp : (p ∘ f) = p := funext hf
  rw [hp]

/-- `complete_episode` leaves the `scenes` table untouched. -/
theorem complete_episode_scenes (db : DB) (eid : Nat) :
    (complete_episode db eid).scenes = db.scenes := rfl

/-- The row update of `complete_episode` preserves episode ids. -/
theorem complete_episode_find?_id (db : DB) (eid : Nat) (c : ℚ) :
    (db.episodes.map (fun e =>
      if e.id == eid then { e with completed := true, total_cost_usd := some c }
      else e)).find? (fun e => e.id == eid) =
    (db.episodes.find? (fun e => e.id == eid)).map (fun e =>
      if e.id == eid then { e with completed := true, total_cost_usd := some c }
      else e) := by
  apply find?_map_preserving
  intro x
  cases hx : (x.id == eid) <;> simp [hx]

/-- What `complete_episode` writes into the episode row: the recomputed
`COALESCE(SUM(generation_cost_usd), 0)` over that episode's scene rows. -/
theorem complete_episode_total (db : DB) (eid : Nat)
    (hfind : (db.episodes.find? (fun e => e.id == eid)).isSome = true) :
    episode_total_cost (complete_episode db eid) eid =
      some (((db.scenes.filter (fun s => s.episode_id == eid)).map
        (fun s => s.generation_cost_usd.getD 0)).sum) := by
  obtain ⟨e, he⟩ := Option.isSome_iff_exists.mp hfind
  have hpe := List.find?_some he
  unfold episode_total_cost complete_episode update_series_state
  simp only []
  rw [complete_episode_find?_id, he]
  have heq : e.id = eid := by exact_mod_cast beq_iff_eq.mp hpe
  simp [heq]

/-- `complete_episode` keeps the episode row findable. -/
theorem complete_episode_find_isSome (db : DB) (eid : Nat)
    (hfind : (db.episodes.find? (fun e => e.id == eid)).isSome = true) :
    ((complete_episode db eid).episodes.find? (fun e => e.id == eid)).isSome = true := by
  unfold complete_episode update_series_state
  simp only []
  rw [complete_episode_find?_id]
  cases hf : db.episodes.find? (fun e => e.id == eid) with
  | none => rw [hf] at hfind; exact absurd hfind (by simp)
  | some e => rfl

/-- C3: after `complete_episode`, the episode's `total_cost` is exactly the
sum of the costs of that episode's completed scenes, recomputed from the
scene rows (whenever the cost column is populated exactly on completed rows,
as the lifecycle maintains); running `complete_episode` twice yields the same
`total_cost`; and the call increments `total_episodes`, resets
`current_scene_in_episode` to 1 and sets the status to idle. -/
theorem C3_complete_episode_cost :
    ∀ (db : DB) (eid : Nat),
      (∀ s ∈ db.scenes, s.generation_cost_usd.isSome = s.completed) →
      (db.episodes.find? (fun e => e.id == eid)).isSome = true →
      episode_total_cost (complete_episode db eid) eid =
        some (completed_scene_cost_sum db eid)
      ∧ episode_total_cost (complete_episode (complete_episode db eid) eid) eid =
          episode_total_cost (complete_episode db eid) eid
      ∧ (complete_episode db eid).series.total_episodes = db.series.total_episodes + 1
      ∧ (complete_episode db eid).series.current_scene_in_episode = 1
      ∧ (complete_episode db eid).series.system_status = "idle" := by
  intro db eid h hfind
  have h1 := complete_episode_total db eid hfind
  refine ⟨?_, ?_, rfl, rfl, rfl⟩
  · rw [h1, completed_scene_cost_sum, cost_sum_completed eid db.scenes h]
  · have h2 := complete_episode_total (complete_episode db eid) eid
      (complete_episode_find_isSome db eid hfind)
    rw [h2, h1, complete_episode_scenes]

/-- C3 witness: the concrete database `dbC3` (episode 1: completed scenes
costing 2 and 3, one unfinished scene), run through the theorem. -/
theorem C3_complete_episode_cost_witness :
    episode_total_cost (complete_episode dbC3 1) 1 =
      some (completed_scene_cost_sum dbC3 1)
    ∧ episode_total_cost (complete_episode (complete_episode dbC3 1) 1) 1 =
        episode_total_cost (complete_episode dbC3 1) 1
    ∧ (complete_episode dbC3 1).series.total_episodes = dbC3.series.total_episodes + 1
    ∧ (complete_episode dbC3 1).series.current_scene_in_episode = 1
    ∧ (complete_episode dbC3 1).series.system_status = "idle" :=
  C3_complete_episode_cost dbC3 1 (by decide) (by decide)

/-! ## C2 — scene numbering across shutdown and resume -/

theorem update_series_state_scenes (db : DB) (a b c d : Option Nat) (e : Option String) :
    (update_series_state db a b c d e).scenes = db.scenes := rfl

theorem update_series_state_total_scenes (db : DB) (a b : Option Nat) (c d : Option Nat)
    (e : Option String) :
    (update_series_state db a b c d e).series.total_scenes = c.getD db.series.total_scenes := rfl

theorem log_generation_event_scenes (db : DB) (sn : Option Nat) (lv c m : String)
    (err : Option String) : (log_generation_event db sn lv c m err).scenes = db.scenes := rfl

theorem log_generation_event_series (db : DB) (sn : Option Nat) (lv c m : String)
    (err : Option String) : (log_generation_event db sn lv c m err).series = db.series := rfl

theorem complete_episode_total_scenes (db : DB) (eid : Nat) :
    (complete_episode db eid).series.total_scenes = db.series.total_scenes := rfl

/-- `start_episode` touches only the `episodes` table and the status fields of
the series state. -/
theorem start_episode_scenes_total (db : DB) (n : Nat) (p s : String) :
    (start_episode db n p s).1.scenes = db.scenes
    ∧ (start_episode db n p s).1.series.total_scenes = db.series.total_scenes := by
  unfold start_episode
  cases h : db.episodes.find? (fun e => e.episode_number == n) <;>
    simp [h, update_series_state]

/-- When the committed scene numbers are exactly `1..T`, the lookup for scene
number `T + 1` finds nothing. -/
theorem find?_scene_none (l : List SceneRow) (T : Nat)
    (h : l.map (fun s => s.scene_number) = List.range' 1 T) :
    l.find? (fun s => s.scene_number == T + 1) = none := by
  rw [List.find?_eq_none]
  intro s hs
  have hmem : s.scene_number ∈ List.range' 1 T := by
    rw [← h]
    exact List.mem_map_of_mem _ hs
  have hlt := (List.mem_range'_1.mp hmem).2
  simp only [beq_iff_eq]
  omega

/-- `complete_scene` never changes a scene number. -/
theorem complete_scene_sceneNumbers (db : DB) (sid : Nat) (url : String) (c : ℚ) (rc : Nat) :
    (complete_scene db sid url c rc).scenes.map (fun s => s.scene_number) =
      db.scenes.map (fun s => s.scene_number) := by
  unfold complete_scene update_series_state
  simp only [List.map_map]
  apply List.map_congr_left
  intro s _
  by_cases h : s.id = sid <;> simp [h]

/-- One scene-loop iteration at global number `T + 1`, on a database whose
committed scene numbers are exactly `1..T`, commits exactly scene `T + 1`
(fresh row, then completed) and bumps `total_scenes` to `T + 1`. -/
theorem sceneStep_invariant (synth : String → VideoResult) (eid : Nat) (T : Nat)
    (sp : ScenePlan) (st : OrchSt)
    (h1 : st.db.scenes.map (fun s => s.scene_number) = List.range' 1 T)
    (h2 : st.db.series.total_scenes = T) :
    (sceneStep synth eid (T + 1) sp st).db.scenes.map (fun s => s.scene_number) =
      List.range' 1 (T + 1)
    ∧ (sceneStep synth eid (T + 1) sp st).db.series.total_scenes = T + 1 := by
  have hnone := find?_scene_none st.db.scenes T h1
  unfold sceneStep create_scene
  simp only [hnone]
  constructor
  · rw [complete_scene_sceneNumbers, update_series_state_scenes]
    simp only [List.map_append, h1, List.map_cons, List.map_nil]
    rw [List.range'_concat]
    simp [Nat.add_comm]
  · simp [complete_scene, update_series_state, h2]

/-- The scene loop preserves the gap-free numbering invariant: starting from
committed numbers exactly `1..T` (and `total_scenes = T`) with
`global_scene_number = T + 1`, it commits numbers exactly `1..T+k` for the
`k ≤ |plans|` scenes it processed before finishing or being shut down. -/
theorem sceneLoop_sceneNumbers (cutoff : Nat) (synth : String → VideoResult) (eid : Nat)
    (plans : List ScenePlan) :
    ∀ (t T : Nat) (st : OrchSt),
      st.db.scenes.map (fun s => s.scene_number) = List.range' 1 T →
      st.db.series.total_scenes = T →
      ∃ k, (sceneLoop cutoff synth eid plans (T + 1) t st).1.db.scenes.map
            (fun s => s.scene_number) = List.range' 1 (T + k)
        ∧ (sceneLoop cutoff synth eid plans (T + 1) t st).1.db.series.total_scenes = T + k := by
  induction plans with
  | nil =>
    intro t T st h1 h2
    exact ⟨0, h1, h2⟩
  | cons sp plans ih =>
    intro t T st h1 h2
    rw [sceneLoop]
    by_cases hf : flagAt cutoff t = true
    · rw [if_pos hf]
      exact ⟨0, h1, h2⟩
    · rw [if_neg hf]
      obtain ⟨h1', h2'⟩ := sceneStep_invariant synth eid T sp st h1 h2
      obtain ⟨k, hk1, hk2⟩ := ih (t + 1) (T + 1) (sceneStep synth eid (T + 1) sp st) h1' h2'
      refine ⟨k + 1, ?_, ?_⟩
      · rw [show T + (k + 1) = (T + 1) + k from by omega]
        exact hk1
      · rw [show T + (k + 1) = (T + 1) + k from by omega]
        exact hk2

/-- `generate_episode` preserves the gap-free scene numbering invariant, for
every planner outcome and every shutdown cut-off. -/
theorem generate_episode_sceneNumbers (planRes : Except String EpisodePlan)
    (cutoff : Nat) (synth : String → VideoResult) (st : OrchSt) (T : Nat)
    (h1 : st.db.scenes.map (fun s => s.scene_number) = List.range' 1 T)
    (h2 : st.db.series.total_scenes = T) :
    ∃ k, (generate_episode planRes cutoff synth st).db.scenes.map
          (fun s => s.scene_number) = List.range' 1 (T + k)
      ∧ (generate_episode planRes cutoff synth st).db.series.total_scenes = T + k := by
  cases planRes with
  | error e =>
    refine ⟨0, ?_, ?_⟩
    · simpa [generate_episode, update_series_state, log_generation_event] using h1
    · simpa [generate_episode, update_series_state, log_generation_event] using h2
  | ok plan =>
    rw [generate_episode]
    simp only []
    obtain ⟨hs, ht⟩ := start_episode_scenes_total
      (log_generation_event
        (update_series_state st.db none none none none (some "planning_episode"))
        none "INFO" "director"
        ("Planned episode " ++ toString st.db.series.current_episode ++ ": " ++
          plan.episode_summary))
      st.db.series.current_episode (planBlob plan) plan.episode_summary
    rw [log_generation_event_scenes, update_series_state_scenes] at hs
    rw [log_generation_event_series] at ht
    have h1' : ({ st with db := (start_episode
        (log_generation_event
          (update_series_state st.db none none none none (some "planning_episode"))
          none "INFO" "director"
          ("Planned episode " ++ toString st.db.series.current_episode ++ ": " ++
            plan.episode_summary))
        st.db.series.current_episode (planBlob plan) plan.episode_summary).1 } :
        OrchSt).db.scenes.map (fun s => s.scene_number) = List.range' 1 T := by
      rw [hs]
      exact h1
    have h2' : ({ st with db := (start_episode
        (log_generation_event
          (update_series_state st.db none none none none (some "planning_episode"))
          none "INFO" "director"
          ("Planned episode " ++ toString st.db.series.current_episode ++ ": " ++
            plan.episode_summary))
        st.db.series.current_episode (planBlob plan) plan.episode_summary).1 } :
        OrchSt).db.series.total_scenes = T := by
      rw [ht]
      exact h2
    rw [h2]
    obtain ⟨k, hk1, hk2⟩ := sceneLoop_sceneNumbers cutoff synth _ plan.scenes 0 T _ h1' h2'
    refine ⟨k, ?_⟩
    split
    · exact ⟨hk1, hk2⟩
    · split
      · exact ⟨hk1, hk2⟩
      · constructor
        · rw [update_series_state_scenes, complete_episode_scenes]
          exact hk1
        · rw [update_series_state_total_scenes, complete_episode_total_scenes]
          exact hk2

/-- C2 counterexample: in the shutdown-mid-wait scenario the resumed run does
NOT reuse the already-completed scenes 1–2 — it re-synthesizes their prompts
("p1", "p2" occur twice in the generator call trace) and creates a second row
for episode-scene 1 (global scene 3 carries `scene_in_episode = 1`), because
`generate_episode` always restarts the plan from its first scene and keys
scene rows only by the fresh global `scene_number`. -/
theorem C2_counterexample :
    resumeRun.synthLog = ["p1", "p2", "p1", "p2", "p3", "p4", "p5", "p6"]
    ∧ resumeRun.synthLog.count "p1" = 2
    ∧ (resumeRun.db.scenes.filter (fun s => s.scene_in_episode == 1)).length = 2
    ∧ (resumeRun.db.scenes.map (fun s => (s.scene_number, s.scene_in_episode))) =
      [(1, 1), (2, 2), (3, 1), (4, 2), (5, 3), (6, 4), (7, 5), (8, 6)] := by
  refine ⟨by decide, by decide, by decide, by decide⟩

/-- C2 amended: committed scene numbers are always exactly `1..total_scenes`
— strictly increasing, no gaps, no duplicates — and this is preserved by
every run of `generate_episode`; in the scenario, a shutdown flag set during
the inter-scene wait after scene 2 makes the loop exit without creating scene
3, and a later resume reuses the existing episode_number and creates its
first new row with the next global scene_number 3 and no duplicate
scene_number — but it restarts the plan from scene 1, re-synthesizing all six
scenes as fresh rows 3–8 instead of reusing completed scenes 1–2 and
synthesizing only the missing ones. -/
theorem C2_scene_numbering :
    (∀ (planRes : Except String EpisodePlan) (cutoff : Nat)
       (synth : String → VideoResult) (st : OrchSt) (T : Nat),
       st.db.scenes.map (fun s => s.scene_number) = List.range' 1 T →
       st.db.series.total_scenes = T →
       ∃ k, (generate_episode planRes cutoff synth st).db.scenes.map
             (fun s => s.scene_number) = List.range' 1 (T + k)
         ∧ (generate_episode planRes cutoff synth st).db.series.total_scenes = T + k)
    ∧ sceneNumbers shutdownRun.db = [1, 2]
    ∧ shutdownRun.synthLog = ["p1", "p2"]
    ∧ shutdownRun.db.series.current_episode = 1
    ∧ resumeRun.db.episodes.map (fun e => (e.id, e.episode_number)) = [(1, 1)]
    ∧ sceneNumbers resumeRun.db = [1, 2, 3, 4, 5, 6, 7, 8]
    ∧ sceneNumbers resumeRun.db = List.range' 1 8 := by
  refine ⟨?_, by decide, by decide, by decide, by decide, by decide, by decide⟩
  intro planRes cutoff synth st T h1 h2
  exact generate_episode_sceneNumbers planRes cutoff synth st T h1 h2

/-- C2 witness: the invariant conjunct applied to the concrete resumed run
(`shutdownRun` has committed scenes exactly `1..2`), discharging both
hypotheses by evaluation. -/
theorem C2_scene_numbering_witness :
    ∃ k, (generate_episode (.ok plan6) 99 synthMock shutdownRun).db.scenes.map
          (fun s => s.scene_number) = List.range' 1 (2 + k)
      ∧ (generate_episode (.ok plan6) 99 synthMock shutdownRun).db.series.total_scenes
          = 2 + k :=
  C2_scene_numbering.1 (.ok plan6) 99 synthMock shutdownRun 2 (by decide) (by decide)

/-! ## C7 — which scenes the director context renders -/

/-- C7: evaluation of `build_director_context` at the failing input `db11`
(11 committed scenes, numbers 1–11). `get_recent_scenes` returns the window
in DESCENDING scene_number order, and `recent_scenes[-10:]` then keeps the
LAST ten rows of that descending list — the ten OLDEST scenes of the window.
The rendered `recent_events` are scenes 10 down to 1; scene 11, the most
recent scene, is dropped, although the claim (and the code's own
"Last 10 scenes" comment) requires the ten scenes with the HIGHEST
scene_number. -/
theorem C7_renders_oldest_ten :
    (lastTen (get_recent_scenes db11 100)).map (fun r => r.scene_number) =
      [10, 9, 8, 7, 6, 5, 4, 3, 2, 1]
    ∧ (db11.scenes.map (fun s => s.scene_number)).maximum = some 11
    ∧ build_director_context_recent_events db11 =
      ["Scene 10 (Ep 2, Scene 4): n10", "Scene 9 (Ep 2, Scene 3): n9",
       "Scene 8 (Ep 2, Scene 2): n8", "Scene 7 (Ep 2, Scene 1): n7",
       "Scene 6 (Ep 1, Scene 6): n6", "Scene 5 (Ep 1, Scene 5): n5",
       "Scene 4 (Ep 1, Scene 4): n4", "Scene 3 (Ep 1, Scene 3): n3",
       "Scene 2 (Ep 1, Scene 2): n2", "Scene 1 (Ep 1, Scene 1): n1"]
    ∧ ¬ "Scene 11 (Ep 2, Scene 5): n11" ∈ build_director_context_recent_events db11 := by
  refine ⟨by decide, by decide, by decide, by decide⟩

/-! ## C6 — when planning fails, and what the orchestrator does then -/

/-- `d[key] = v` does not disturb lookups of other keys. -/
theorem jlookup_jset_ne (fs : List (String × JValue)) (k : String) (v : JValue)
    (k' : String) (hne : k ≠ k') :
    jlookup (jset fs k v) k' = jlookup fs k' := by
  unfold jset
  by_cases hp : (fs.find? (fun kv => kv.1 == k)).isSome = true
  · rw [if_pos hp]
    unfold jlookup
    rw [find?_map_preserving (fun kv => if kv.1 == k then (kv.1, v) else kv)
      (fun kv => kv.1 == k')
      (by intro x; by_cases hx : (x.1 == k) = true <;> simp [hx]) fs]
    cases hf : fs.find? (fun kv => kv.1 == k') with
    | none => rfl
    | some kv =>
      have hkv := List.find?_some hf
      have h1 : kv.1 = k' := by simpa using hkv
      simp [h1, Ne.symm hne]
  · rw [if_neg hp]
    unfold jlookup
    rw [List.find?_append]
    cases hf : fs.find? (fun kv => kv.1 == k') with
    | some kv => simp
    | none =>
      have hk : (k == k') = false := beq_eq_false_iff_ne.mpr hne
      simp [List.find?, hk]

/-- `validate_scene` succeeds exactly on the scenes in the code's success set
`py_valid_scene` (which, by membership semantics, includes suitable strings
and lists, not only objects). -/
theorem validate_scene_ok (i : Nat) (s : JValue) :
    exceptOk (validate_scene i s) = py_valid_scene s := by
  cases s with
  | jobj fs =>
    unfold validate_scene py_valid_scene jContains
    dsimp only
    by_cases hsie : (jlookup fs "scene_in_episode").isSome = true
    · rw [if_pos hsie]
      dsimp only
      by_cases hc : ((jlookup fs "video_prompt").isSome &&
          (jlookup fs "narrative_summary").isSome) = true <;>
        simp [hc, exceptOk]
    · rw [if_neg hsie]
      dsimp only
      rw [jlookup_jset_ne fs "scene_in_episode" _ "video_prompt" (by decide)]
      rw [jlookup_jset_ne fs "scene_in_episode" _ "narrative_summary" (by decide)]
      by_cases hc : ((jlookup fs "video_prompt").isSome &&
          (jlookup fs "narrative_summary").isSome) = true <;>
        simp [hc, exceptOk]
  | jstr str =>
    unfold validate_scene py_valid_scene jContains
    dsimp only
    by_cases hsie : hasSub "scene_in_episode".data str.data = true
    · rw [if_pos hsie]
      dsimp only
      by_cases hc : (hasSub "video_prompt".data str.data &&
          hasSub "narrative_summary".data str.data) = true <;>
        simp [hsie, hc, exceptOk]
    · rw [if_neg hsie]
      simp [hsie, exceptOk]
  | jarr elems =>
    unfold validate_scene py_valid_scene jContains
    dsimp only
    by_cases hsie : (elems.any (fun e => jStrEq e "scene_in_episode")) = true
    · rw [if_pos hsie]
      dsimp only
      by_cases hc : ((elems.any (fun e => jStrEq e "video_prompt")) &&
          (elems.any (fun e => jStrEq e "narrative_summary"))) = true <;>
        simp [hsie, hc, exceptOk]
    · rw [if_neg hsie]
      simp [hsie, exceptOk]
  | jnum n => rfl
  | jbool b => rfl
  | jnull => rfl

/-- The validation loop succeeds exactly when every iterated scene is in the
code's success set, regardless of the starting index. -/
theorem validate_scenes_ok (l : List JValue) :
    ∀ i, exceptOk (validate_scenes i l) = l.all py_valid_scene := by
  induction l with
  | nil => intro i; rfl
  | cons s l ih =>
    intro i
    rw [validate_scenes]
    cases hv : validate_scene i s with
    | error e =>
      have hs := validate_scene_ok i s
      rw [hv] at hs
      simp [List.all_cons, ← hs, exceptOk]
    | ok s1 =>
      have hs := validate_scene_ok i s
      rw [hv] at hs
      cases hr : validate_scenes (i + 1) l with
      | error e =>
        have hl := ih (i + 1)
        rw [hr] at hl
        simp [List.all_cons, ← hs, ← hl, exceptOk]
      | ok l1 =>
        have hl := ih (i + 1)
        rw [hr] at hl
        simp [List.all_cons, ← hs, ← hl, exceptOk]

/-- `validate_plan` succeeds exactly on the plans in the code's success set
`py_valid_plan`: a dict with `episode_summary` and any `scenes` container of
`len` 6 whose iterated elements pass the membership checks. -/
theorem validate_plan_ok (j : JValue) (n : Nat) :
    exceptOk (validate_plan j n) = py_valid_plan j := by
  cases j with
  | jobj fields =>
    unfold validate_plan py_valid_plan
    dsimp only
    by_cases hes : (jlookup fields "episode_summary").isSome = true
    · cases hsv : jlookup fields "scenes" with
      | none => simp [hes, exceptOk]
      | some scenes =>
        rw [if_pos (by rw [hes]; rfl)]
        dsimp only
        cases hlen : jLen scenes with
        | none => simp [hes, exceptOk]
        | some len =>
          dsimp only
          by_cases h6 : (len == 6) = true
          · rw [if_pos h6]
            cases hvs : validate_scenes 1 (jIter scenes) with
            | error e =>
              have hokv := validate_scenes_ok (jIter scenes) 1
              rw [hvs] at hokv
              simp [hes, h6, ← hokv, exceptOk]
            | ok elems1 =>
              have hokv := validate_scenes_ok (jIter scenes) 1
              rw [hvs] at hokv
              simp [hes, h6, ← hokv, exceptOk]
          · rw [if_neg h6]
            simp [hes, h6, exceptOk]
    · have hes0 : (jlookup fields "episode_summary").isSome = false := by
        simpa using hes
      rw [if_neg (by rw [hes0]; simp), hes0]
      simp [exceptOk]
  | jstr str => rfl
  | jnum m => rfl
  | jbool b => rfl
  | jnull => rfl
  | jarr l => rfl

/-- Scenes of the spec's required structure pass the code's validation. -/
theorem spec_valid_scene_imp (s : JValue) (h : spec_valid_scene s = true) :
    py_valid_scene s = true := by
  cases s with
  | jobj fs => simpa [spec_valid_scene, py_valid_scene] using h
  | jstr str => simp [spec_valid_scene] at h
  | jnum m => simp [spec_valid_scene] at h
  | jbool b => simp [spec_valid_scene] at h
  | jnull => simp [spec_valid_scene] at h
  | jarr l => simp [spec_valid_scene] at h

/-- Plans of the spec's required structure pass the code's validation: the
code's success set strictly contains the spec's (see the counterexample for
strictness). -/
theorem spec_valid_plan_imp (j : JValue) (h : spec_valid_plan j = true) :
    py_valid_plan j = true := by
  cases j with
  | jobj fields =>
    unfold spec_valid_plan at h
    unfold py_valid_plan
    dsimp only at h ⊢
    rw [Bool.and_eq_true] at h
    obtain ⟨hes, hsc⟩ := h
    rw [hes, Bool.true_and]
    cases hsv : jlookup fields "scenes" with
    | none => rw [hsv] at hsc; simp at hsc
    | some scenes =>
      rw [hsv] at hsc
      cases scenes with
      | jarr elems =>
        dsimp only at hsc ⊢
        rw [Bool.and_eq_true] at hsc
        obtain ⟨h6, hall⟩ := hsc
        simp only [jLen, jIter, h6, Bool.true_and]
        rw [List.all_eq_true] at hall ⊢
        intro x hx
        exact spec_valid_scene_imp x (hall x hx)
      | jstr str => simp at hsc
      | jnum m => simp at hsc
      | jbool b => simp at hsc
      | jnull => simp at hsc
      | jobj fs => simp at hsc
  | jstr str => simp [spec_valid_plan] at h
  | jnum m => simp [spec_valid_plan] at h
  | jbool b => simp [spec_valid_plan] at h
  | jnull => simp [spec_valid_plan] at h
  | jarr l => simp [spec_valid_plan] at h

/-- `findSub` finds the pattern at position 0 when it is a prefix. -/
theorem findSub_of_isPrefixOf {pat l : List Char} (hne : pat ≠ [])
    (hp : pat.isPrefixOf l = true) : findSub pat l = some 0 := by
  cases l with
  | nil =>
    cases pat with
    | nil => exact absurd rfl hne
    | cons a as => simp [List.isPrefixOf] at hp
  | cons c rest => rw [findSub, if_pos hp]

/-- In `s ++ "```"` with no backtick inside `s`, the first triple-backtick
starts exactly at `s.length`. -/
theorem findSub_fence_after (s : List Char) (h : ∀ c ∈ s, c ≠ '`') :
    findSub ['`', '`', '`'] (s ++ ['`', '`', '`']) = some s.length := by
  induction s with
  | nil => rfl
  | cons c cs ih =>
    have hc : c ≠ '`' := h c (List.mem_cons_self c cs)
    rw [List.cons_append, findSub]
    have hpre : ((['`', '`', '`'] : List Char).isPrefixOf (c :: (cs ++ ['`', '`', '`']))) =
        false := by
      rw [List.isPrefixOf]
      rw [beq_eq_false_iff_ne.mpr (fun hh => hc hh.symm)]
      rfl
    rw [if_neg (by rw [hpre]; simp)]
    rw [ih (fun x hx => h x (List.mem_cons_of_mem c hx))]
    rfl

/-- Fencing is stripped before validation: a response wrapping a
backtick-free payload in a markdown ```` ```json ```` fence parses exactly as
the stripped payload does. -/
theorem stripFence_wrapped (s : String) (h : ∀ c ∈ s.data, c ≠ '`') :
    stripFenceStr ("```json" ++ s ++ "```") = ⟨pyStrip s.data⟩ := by
  have hdata : ("```json" ++ s ++ "```").data =
      ['`', '`', '`', 'j', 's', 'o', 'n'] ++ (s.data ++ ['`', '`', '`']) := by
    rw [string_data_append, string_data_append, List.append_assoc]
  have h0 : findSub ['`', '`', '`', 'j', 's', 'o', 'n']
      (['`', '`', '`', 'j', 's', 'o', 'n'] ++ (s.data ++ ['`', '`', '`'])) = some 0 :=
    findSub_of_isPrefixOf (by decide)
      (List.isPrefixOf_iff_prefix.mpr (List.prefix_append _ _))
  have hdrop : List.drop (0 + 7)
      (['`', '`', '`', 'j', 's', 'o', 'n'] ++ (s.data ++ ['`', '`', '`'])) =
      s.data ++ ['`', '`', '`'] := by
    have h7 : (0 + 7 : Nat) = (['`', '`', '`', 'j', 's', 'o', 'n'] : List Char).length := rfl
    rw [h7, List.drop_left]
  have hfence : findSub ['`', '`', '`'] (s.data ++ ['`', '`', '`']) = some s.data.length :=
    findSub_fence_after s.data h
  have htake : List.take s.data.length (s.data ++ ['`', '`', '`']) = s.data :=
    List.take_left _ _
  unfold stripFenceStr stripFence
  dsimp only
  rw [hdata, h0]
  dsimp only
  rw [hdrop, hfence]
  dsimp only
  rw [htake]

/-- C6 counterexample: a response whose six "scenes" are strings containing
the three key names as substrings is NOT the spec's required structure, yet
`_parse_episode_plan` accepts it — Python's `"key" not in scene` is substring
containment on a string scene — refuting "fails ... exactly when the
response cannot be parsed into the required structure". -/
theorem C6_counterexample :
    exceptOk (validate_plan trickPlan 7) = true
    ∧ spec_valid_plan trickPlan = false
    ∧ exceptOk (parse_episode_plan
        (fun st => if st = "SIX-STRING-SCENES" then some trickPlan else none)
        "SIX-STRING-SCENES" 7) = true := by
  refine ⟨by decide, by decide, by decide⟩

/-- C6 amended: planning fails exactly when the (fence-stripped) response
does not load as JSON or falls outside the code's membership-based success
set `py_valid_plan` — a dict with `episode_summary` and a `scenes` container
(list, string or dict) of `len` 6 whose iterated elements each contain
`scene_in_episode` (or are dicts, which get it defaulted) together with
`video_prompt` and `narrative_summary` under Python's `in`; this is a strict
superset of the spec's required structure, which it does accept in full.
Incidental markdown fencing is stripped before validation; and when the
planner fails, the orchestrator leaves the episodes (and scenes) tables
untouched, records status "error", and the outer loop goes on to run the
next episode attempt instead of terminating. -/
theorem C6_membership_validation :
    (∀ (loads : String → Option JValue) (content : String) (n : Nat),
      exceptOk (parse_episode_plan loads content n) =
        ((loads (stripFenceStr content)).map py_valid_plan).getD false)
    ∧ (∀ j : JValue, spec_valid_plan j = true → py_valid_plan j = true)
    ∧ (∀ s : String, (∀ c ∈ s.data, c ≠ '`') →
        stripFenceStr ("```json" ++ s ++ "```") = ⟨pyStrip s.data⟩)
    ∧ (∀ (e : String) (cutoff : Nat) (synth : String → VideoResult) (st : OrchSt),
        (generate_episode (.error e) cutoff synth st).db.episodes = st.db.episodes
        ∧ (generate_episode (.error e) cutoff synth st).db.scenes = st.db.scenes
        ∧ (generate_episode (.error e) cutoff synth st).db.series.system_status = "error")
    ∧ (orchestrator_run [(.error "invalid", 0), (.ok plan6, 99)] synthMock
        initialState).db.scenes.length = 6
    ∧ (orchestrator_run [(.error "invalid", 0), (.ok plan6, 99)] synthMock
        initialState).db.series.total_episodes = 1 := by
  refine ⟨?_, spec_valid_plan_imp, stripFence_wrapped, ?_, by decide, by decide⟩
  · intro loads content n
    unfold parse_episode_plan
    cases hl : loads (stripFenceStr content) with
    | none => rfl
    | some j => simpa using validate_plan_ok j n
  · intro e cutoff synth st
    exact ⟨rfl, rfl, rfl⟩

/-- C6 witness: the spec-shaped `goodPlan` passes the code's validation, a
concrete backtick-free payload exercises the fencing conjunct, and concrete
inputs exercise the failure-path conjunct. -/
theorem C6_membership_validation_witness :
    spec_valid_plan goodPlan = true
    ∧ py_valid_plan goodPlan = true
    ∧ stripFenceStr ("```json" ++ " [1, 2, 3] " ++ "```") = ⟨pyStrip " [1, 2, 3] ".data⟩
    ∧ (generate_episode (.error "bad") 0 synthMock initialState).db.episodes =
        initialState.db.episodes :=
  ⟨by decide,
   C6_membership_validation.2.1 goodPlan (by decide),
   C6_membership_validation.2.2.1 " [1, 2, 3] " (by decide),
   (C6_membership_validation.2.2.2.1 "bad" 0 synthMock initialState).1⟩

end AniGen
